import Mathlib

/-!
# Verification of the `launch` runtime core

A shallow embedding of the event-dispatch and process-execution core of the
`launch` repository (packages `launch`, `launch_testing`), translated from the
Python sources:

* `launch/launch_context.py` — event queue, handler registry, dispatch;
* `launch/launch_service.py` — run loop, shutdown handling;
* `launch/actions/execute_process.py` — the `ExecuteProcess` action;
* `launch/events/process/*.py` — the process event classes;
* `launch/utilities/normalize_to_list_of_substitutions_impl.py`;
* `launch_testing/__init__.py` — the testing wrapper around `run`.

Python objects become inductive data; coroutines become explicit traces or
state-passing functions; a raised exception becomes an explicit error value
threaded next to the state.  Identity of Python objects (actions, handlers,
entities) is modelled by natural-number ids.  Where a module of the repository
is not present under `src/` (several event classes, `event_named`,
`is_a_subclass`, `LaunchDescription`), the definition is modelled from the
specification and marked `Modelled from the spec:` in its doc comment.
-/

/-- Python exceptions that the embedded code can raise. -/
inductive PyErr where
  /-- Python `TypeError` (wrong argument type, missing required keyword argument). -/
  | typeError : PyErr
  /-- Python `RuntimeError` (the complaint of the dispatcher about a non-entity result,
  or the re-entry complaint of `LaunchService.run`). -/
  | runtimeError : PyErr
  /-- Python `OSError` with an errno, raised when the OS refuses to spawn a child. -/
  | osError : Nat → PyErr
  /-- An arbitrary exception raised by a user handler, tagged by a code. -/
  | userError : Nat → PyErr
deriving DecidableEq, Repr

/-- A substitution, reduced to the `Resolve(context) -> string` contract the core
consumes.  The claims under verification only involve substitutions that resolve
to literal strings, so a substitution is carried by its performed value
(`Substitution.perform` in `launch/substitution.py`, not under `src/`). -/
structure Substitution where
  performed : String
deriving DecidableEq, Repr

/-- Embedding of `TextSubstitution(text=s)` from `launch/substitutions` (not under `src/`):
a substitution that performs to the literal text it wraps. -/
def TextSubstitution (text : String) : Substitution :=
  Substitution.mk text

/-- A value of Python type `SomeSubstitutionsType` as accepted by
`normalize_to_list_of_substitutions`: a string, a `Substitution` object, or an
iterable of such values. -/
inductive SomeSub where
  | text : String → SomeSub
  | sub : Substitution → SomeSub
  | iter : List SomeSub → SomeSub

/-- The inner `normalize` closure of `normalize_to_list_of_substitutions`
(`normalize_to_list_of_substitutions_impl.py`, lines 50-57): a `Substitution`
passes through, a `str`/`bytes` becomes a `TextSubstitution`, and anything
else — in particular a nested list — raises `TypeError`. -/
def normalizeItem : SomeSub → Except PyErr Substitution
  | SomeSub.sub s => Except.ok s
  | SomeSub.text s => Except.ok (TextSubstitution s)
  | SomeSub.iter _ => Except.error PyErr.typeError

/-- The list comprehension `[normalize(y) for y in subs]` of
`normalize_to_list_of_substitutions` (line 63): normalize every element,
propagating the first raised `TypeError`. -/
def normalizeAll : List SomeSub → Except PyErr (List Substitution)
  | [] => Except.ok []
  | x :: rest =>
    match normalizeItem x, normalizeAll rest with
    | Except.ok s, Except.ok l => Except.ok (s :: l)
    | Except.error e, _ => Except.error e
    | Except.ok _, Except.error e => Except.error e

/-- Embedding of `normalize_to_list_of_substitutions(subs)`
(`normalize_to_list_of_substitutions_impl.py`, lines 48-63): a `str` becomes a
singleton `TextSubstitution`, a `Substitution` a singleton list, and any other
iterable is mapped through the inner `normalize`, which raises `TypeError` on
elements that are themselves iterables. -/
def normalize_to_list_of_substitutions : SomeSub → Except PyErr (List Substitution)
  | SomeSub.text s => Except.ok [TextSubstitution s]
  | SomeSub.sub s => Except.ok [s]
  | SomeSub.iter l => normalizeAll l

/-- The payload shared by every process event: the associated `ExecuteProcess`
action (by id) and the resolved command, working directory and environment
(`launch/events/process/process_event.py`, `ProcessEvent.__init__`). -/
structure ProcInfo where
  aid : Nat
  cmd : List String
  cwd : Option String
  env : Option (List (String × String))
deriving DecidableEq, Repr

/-- The events of the runtime core.  Payloads follow the constructors of the
event classes; classes whose module is not under `src/` (`ShutdownProcess`,
`ProcessStdin`, `ProcessStarted`, `ProcessStdout`, `ProcessStderr`, `Shutdown`,
`IncludeLaunchDescription`) carry the payloads the data model of the spec gives
them.  An `IncludeLaunchDescription` event refers to its description by id,
looked up in the context. -/
inductive Event where
  | includeLaunchDescription : Nat → Event
  | shutdown : String → Event
  | shutdownProcess : ProcInfo → Event
  | signalProcess : ProcInfo → Int → Event
  | processStdin : ProcInfo → String → Event
  | processStarted : ProcInfo → Event
  | processExited : ProcInfo → Int → Event
  | processStdout : ProcInfo → String → Event
  | processStderr : ProcInfo → String → Event
deriving DecidableEq, Repr

/-- The declared `name` class attribute of each event class.  For the classes
under `src/` this is the literal from the source
(`ProcessEvent.name`, `ProcessExited.name`, `ProcessIO.name`,
`SignalProcess.name`); for the others it is
Modelled from the spec: the stable dotted names of section 6
(`launch.events.IncludeLaunchDescription`, `launch.events.Shutdown`,
`launch.events.process.ProcessStarted|ProcessExited|ProcessStdout|…`). -/
def Event.name : Event → String
  | Event.includeLaunchDescription _ => "launch.events.IncludeLaunchDescription"
  | Event.shutdown _ => "launch.events.Shutdown"
  | Event.shutdownProcess _ => "launch.events.process.ShutdownProcess"
  | Event.signalProcess _ _ => "launch.events.process.SignalProcess"
  | Event.processStdin _ _ => "launch.events.process.ProcessStdin"
  | Event.processStarted _ => "launch.events.process.ProcessStarted"
  | Event.processExited _ _ => "launch.events.process.ProcessExited"
  | Event.processStdout _ _ => "launch.events.process.ProcessStdout"
  | Event.processStderr _ _ => "launch.events.process.ProcessStderr"

/-- The `action` property of process events (`ProcessEvent.action`), as the id
of the associated `ExecuteProcess`; `none` for non-process events. -/
def Event.action : Event → Option Nat
  | Event.includeLaunchDescription _ => none
  | Event.shutdown _ => none
  | Event.shutdownProcess i => some i.aid
  | Event.signalProcess i _ => some i.aid
  | Event.processStdin i _ => some i.aid
  | Event.processStarted i => some i.aid
  | Event.processExited i _ => some i.aid
  | Event.processStdout i _ => some i.aid
  | Event.processStderr i _ => some i.aid

/-- Embedding of `isinstance(event, ProcessExited)` — true exactly for the `ProcessExited`
class (`launch/events/process/process_exited.py`). -/
def Event.isProcessExited : Event → Bool
  | Event.processExited _ _ => true
  | _ => false

/-- Membership in the `ProcessIO` class hierarchy
(`launch/events/process/process_io.py`): `ProcessStdout`, `ProcessStderr` and
`ProcessStdin` are the subclasses (the `fd` 1/2/0 variants of `ProcessIO`). -/
def Event.isProcessIOEvent : Event → Bool
  | Event.processStdout _ _ => true
  | Event.processStderr _ _ => true
  | Event.processStdin _ _ => true
  | _ => false

/-- Returns true iff the event is a `ProcessExited` event (any action). -/
def Event.isExitedEvent : Event → Bool
  | Event.processExited _ _ => true
  | _ => false

/-- Matchers of registered event handlers, defunctionalized to the matcher
shapes occurring in the sources:
`event_named(name)` (Modelled from the spec: `event_handlers/__init__.py` is
not under `src/`; the spec states it returns true iff `event.Name == name`),
the `OnProcessExit` matcher (`on_process_exit.py`, lines 54-56) and the
`OnProcessIO` matcher (`on_process_io.py`, lines 56-59). -/
inductive Matcher where
  | eventNamed : String → Matcher
  | onProcessExitOf : Nat → Matcher
  | onProcessIOOf : Nat → Matcher
deriving DecidableEq, Repr

/-- Evaluation of a matcher on an event. -/
def Matcher.matches : Matcher → Event → Bool
  | Matcher.eventNamed n, e => e.name == n
  | Matcher.onProcessExitOf a, e => e.isProcessExited && (e.action == some a)
  | Matcher.onProcessIOOf a, e => e.isProcessIOEvent && (e.action == some a)

/-- Matcher `event_named(name)` (Modelled from the spec: returns a matcher that is true
iff `event.name == name`). -/
def event_named (name : String) : Matcher :=
  Matcher.eventNamed name

mutual

/-- An entity of a launch description, restricted to the action shapes the
dispatch claims exercise: a no-op action (`LogInfo`-like), the
`RegisterEventHandler` action (not under `src/`; Modelled from the spec: its
execution registers its handler with the context), and the `EmitEvent` action
with a synchronous enqueue.  Each entity carries an id so traces can record
which entity was visited. -/
inductive Entity where
  | nop : Nat → Entity
  | registerHandlerE : Nat → Handler → Entity
  | emitEventSyncE : Nat → Event → Entity

/-- What a handler invocation does, as observed by the dispatcher: raise an
exception, return `None`, return a single `LaunchDescriptionEntity`, return a
plain Python list of entities, or return some other non-entity value. -/
inductive HRes where
  | raises : PyErr → HRes
  | retNone : HRes
  | retEntity : Entity → HRes
  | retEntityList : List Entity → HRes
  | retOther : HRes

/-- The body of a registered handler.  `ret` covers plain handlers by their
returned value; `onShutdownSvc` is `LaunchService.__on_shutdown_event`
(`launch_service.py`, lines 71-79: it only flips the running flag — the
TODO in the source notes that running actions are not shut down); `onIncludeSvc` is
`LaunchService.__on_include_launch_description_event` (lines 64-69: it visits
the launch description of the event and returns `None`). -/
inductive HBody where
  | ret : HRes → HBody
  | onShutdownSvc : HBody
  | onIncludeSvc : HBody

/-- A registered event handler: an id, a matcher and a body
(`launch/event_handler.py` is the `(matcher, handler)` pair; the id models
Python object identity). -/
inductive Handler where
  | mk : Nat → Matcher → HBody → Handler

end

/-- The id of a handler. -/
def Handler.hid : Handler → Nat
  | Handler.mk i _ _ => i

/-- The matcher of a handler. -/
def Handler.matcher : Handler → Matcher
  | Handler.mk _ m _ => m

/-- The body of a handler. -/
def Handler.body : Handler → HBody
  | Handler.mk _ _ b => b

/-- The id of an entity. -/
def Entity.eid : Entity → Nat
  | Entity.nop i => i
  | Entity.registerHandlerE i _ => i
  | Entity.emitEventSyncE i _ => i

/-- One observable step of a dispatch turn: a handler was invoked, or an
entity returned by a handler was visited. -/
inductive TraceItem where
  | invokedH : Nat → TraceItem
  | visitedE : Nat → TraceItem
deriving DecidableEq, Repr

/-- The runtime state of `LaunchContext` plus the service and world state the
claims observe:

* `queue` — the FIFO event queue (`asyncio.Queue`);
* `handlers` — the handler deque, most recently registered at the front;
* `running` — `LaunchService.__running`;
* `descs` — launch descriptions by id (entity lists), for
  `IncludeLaunchDescription` events;
* `trace` — log of handler invocations and entity visits during dispatch;
* `tasks` — ids of actions for which `ExecuteProcess.execute` scheduled an
  asyncio task;
* `taskExc` — exceptions that ended such a task (stored on the task object by
  `create_task`, never re-raised in the run loop);
* `aliveChildren` — pids of OS child processes that have been spawned and have
  not exited (world state; note the source keeps no process table). -/
structure Ctx where
  queue : List Event
  handlers : List Handler
  running : Bool
  descs : List (Nat × List Entity)
  trace : List TraceItem
  tasks : List Nat
  taskExc : List PyErr
  aliveChildren : List Nat

/-- Append one item to the dispatch trace. -/
def Ctx.pushTrace (ctx : Ctx) (t : TraceItem) : Ctx :=
  { ctx with trace := ctx.trace ++ [t] }

/-- Embedding of `LaunchContext.register_event_handler(h)` (`launch_context.py`, lines
73-75): `appendleft` on the deque, i.e. the new handler is prepended. -/
def register_event_handler (h : Handler) (ctx : Ctx) : Ctx :=
  { ctx with handlers := h :: ctx.handlers }

/-- Embedding of `LaunchContext.emit_event_sync(e)` (`launch_context.py`, lines 81-84):
`put_nowait` on the unbounded queue, i.e. the event is appended. -/
def emit_event_sync (e : Event) (ctx : Ctx) : Ctx :=
  { ctx with queue := ctx.queue ++ [e] }

/-- Embedding of `LaunchContext.emit_event(e)` (`launch_context.py`, lines 86-89): awaiting
`put` on the unbounded queue appends the event, same as the sync variant. -/
def emit_event (e : Event) (ctx : Ctx) : Ctx :=
  { ctx with queue := ctx.queue ++ [e] }

/-- Look up a launch description by id; a missing id is the empty description. -/
def Ctx.descOf (ctx : Ctx) (did : Nat) : List Entity :=
  match ctx.descs.find? (fun p => p.fst == did) with
  | some p => p.snd
  | none => []

/-- Visiting one entity (`LaunchDescriptionEntity.visit` /
`Action.visit` delegating to `execute`): a no-op action does nothing, the
register action prepends its handler, the emit action enqueues its event
synchronously.  Each visit is recorded in the trace. -/
def visitEntity (ent : Entity) (ctx : Ctx) : Ctx :=
  match ent with
  | Entity.nop eid => ctx.pushTrace (TraceItem.visitedE eid)
  | Entity.registerHandlerE eid h =>
      register_event_handler h (ctx.pushTrace (TraceItem.visitedE eid))
  | Entity.emitEventSyncE eid e =>
      emit_event_sync e (ctx.pushTrace (TraceItem.visitedE eid))

/-- Visiting the entities of a launch description in order
(Modelled from the spec: `LaunchDescription.visit` is not under `src/`; the
spec states the service visits every entity of the description in order). -/
def visitEntities : List Entity → Ctx → Ctx
  | [], ctx => ctx
  | ent :: rest, ctx => visitEntities rest (visitEntity ent ctx)

/-- The body of `LaunchService.__on_include_launch_description_event`
(`launch_service.py`, lines 64-69): visit the launch description carried by the
event; return `None`. -/
def visitIncluded (e : Event) (ctx : Ctx) : Ctx :=
  match e with
  | Event.includeLaunchDescription did => visitEntities (ctx.descOf did) ctx
  | _ => ctx

/-- The handler loop of `LaunchContext.__process_event`
(`launch_context.py`, lines 54-71), walking a fixed snapshot of the handler
deque front to back.  For each handler whose matcher returns true the handler
is invoked (recorded in the trace); a raised exception propagates immediately
(the source has no try/except); a returned `None` falls through; a returned
entity is visited immediately; any other returned value — a list of entities
included — raises `RuntimeError` (the `is_a_subclass(result,
LaunchDescriptionEntity)` guard; `is_a_subclass` is in
`utilities/class_tools_impl.py`, not under `src/`, Modelled from the spec:
type membership in the entity class).  The service handler bodies are inlined:
shutdown flips the running flag and returns `None`; include visits the
description and returns `None`. -/
def goHandlers : List Handler → Event → Ctx → Ctx × Option PyErr
  | [], _, ctx => (ctx, none)
  | h :: rest, e, ctx =>
    if h.matcher.matches e then
      let ctx1 := ctx.pushTrace (TraceItem.invokedH h.hid)
      match h.body with
      | HBody.onShutdownSvc => goHandlers rest e { ctx1 with running := false }
      | HBody.onIncludeSvc => goHandlers rest e (visitIncluded e ctx1)
      | HBody.ret (HRes.raises err) => (ctx1, some err)
      | HBody.ret HRes.retNone => goHandlers rest e ctx1
      | HBody.ret (HRes.retEntity ent) => goHandlers rest e (visitEntity ent ctx1)
      | HBody.ret (HRes.retEntityList _) => (ctx1, some PyErr.runtimeError)
      | HBody.ret HRes.retOther => (ctx1, some PyErr.runtimeError)
    else goHandlers rest e ctx

/-- Embedding of `LaunchContext.__process_event(event)`: the snapshot
`tuple(self.__event_handlers)` is taken once, so handlers registered while
visiting returned entities are added to `ctx.handlers` but not walked for this
event. -/
def processEvent (e : Event) (ctx : Ctx) : Ctx × Option PyErr :=
  goHandlers ctx.handlers e ctx

/-- Embedding of `LaunchContext._process_one_event` inside `LaunchService.__run_loop`
(`launch_service.py`, lines 91-99): while the running flag is set, dequeue one
event and dispatch it.  An empty queue blocks the loop on `queue.get`
(modelled as stopping with no error); an exception from dispatch propagates
out of the loop.  `fuel` bounds the number of iterations. -/
def runLoop : Nat → Ctx → Ctx × Option PyErr
  | 0, ctx => (ctx, none)
  | Nat.succ fuel, ctx =>
    if ctx.running then
      match ctx.queue with
      | [] => (ctx, none)
      | e :: rest =>
        match processEvent e { ctx with queue := rest } with
        | (ctx', none) => runLoop fuel ctx'
        | (ctx', some err) => (ctx', some err)
    else (ctx, none)

/-- Embedding of `LaunchService.run` (`launch_service.py`, lines 108-137).  The function is
annotated `-> None` and has no return statement, so its value is modelled as
`Except PyErr (Option Int)` whose normal result is always `Except.ok none`
(Python `None`); a `RuntimeError` is raised on re-entry while running, and an
exception escaping the run loop propagates out of `run` uncaught (only
`KeyboardInterrupt` is caught and re-raised), skipping the cleanup that clears
the running flag.  The final context is returned alongside. -/
def LaunchService.run (fuel : Nat) (ctx : Ctx) : Except PyErr (Option Int) × Ctx :=
  if ctx.running then (Except.error PyErr.runtimeError, ctx)
  else
    match runLoop fuel { ctx with running := true } with
    | (ctx', none) => (Except.ok none, { ctx' with running := false })
    | (ctx', some err) => (Except.error err, ctx')

/-- The two handlers `LaunchService.__init__` registers
(`launch_service.py`, lines 44-51): first the `IncludeLaunchDescription`
handler, then the `Shutdown` handler; since registration prepends, the
`Shutdown` handler ends up at the front.  Ids 0 and 1 model the two bound
methods. -/
def LaunchService.initialHandlers : List Handler :=
  [Handler.mk 1 (event_named "launch.events.Shutdown") HBody.onShutdownSvc,
   Handler.mk 0 (event_named "launch.events.IncludeLaunchDescription") HBody.onIncludeSvc]

/-- Embedding of the normalization done by `ExecuteProcess.__init__`  of the `cmd` argument
(`execute_process.py`, line 102): the whole iterable is passed to
`normalize_to_list_of_substitutions`, so each element must itself be a string
or a `Substitution` — an element that is a list raises `TypeError`. -/
def ExecuteProcess.initCmd (cmd : List SomeSub) : Except PyErr (List Substitution) :=
  normalize_to_list_of_substitutions (SomeSub.iter cmd)

/-- Embedding of `LaunchContext.perform_substitution` (`launch_context.py`, lines 91-93):
delegate to the perform method of the substitution. -/
def perform_substitution (s : Substitution) : String :=
  s.performed

/-- The expansion `self._final_cmd = [context.perform_substitution(x) for x in
self.__cmd]` (`execute_process.py`, line 167): one argv entry per normalized
substitution, with no per-element concatenation. -/
def ExecuteProcess.finalCmd (subs : List Substitution) : List String :=
  subs.map perform_substitution

/-- Embedding of `ExecuteProcess.execute` (`execute_process.py`, lines 202-225): register
three event handlers — matched by `event_named` with name `launch.events.ShutdownProcess`,
`event_named` with `launch.events.SignalProcess` and
`event_named` with `launch.events.ProcessStdin`, in that order, with the
logging-only stub methods as bodies (each returns `None`) — then schedule an
asyncio task for `__execute_process`.  `aid` is the id of the action and
`h1 h2 h3` the ids of the three handler objects. -/
def ExecuteProcess.execute (aid h1 h2 h3 : Nat) (ctx : Ctx) : Ctx :=
  let c1 := register_event_handler
    (Handler.mk h1 (event_named "launch.events.ShutdownProcess") (HBody.ret HRes.retNone)) ctx
  let c2 := register_event_handler
    (Handler.mk h2 (event_named "launch.events.SignalProcess") (HBody.ret HRes.retNone)) c1
  let c3 := register_event_handler
    (Handler.mk h3 (event_named "launch.events.ProcessStdin") (HBody.ret HRes.retNone)) c2
  { c3 with tasks := c3.tasks ++ [aid] }

/-- The observable outcome of the spawn in `__execute_process`: the OS refuses
with an errno, or the child runs, delivering a sequence of output chunks
(`isStderr, data`) through the subprocess protocol before completing with a
return code. -/
inductive SpawnOutcome where
  | fail : Nat → SpawnOutcome
  | ok : List (Bool × String) → Int → SpawnOutcome

/-- The event emitted for one output chunk by
`__ProcessProtocol.on_stdout_received` / `on_stderr_received`
(`execute_process.py`, lines 143-159). -/
def ioEvent (info : ProcInfo) (chunk : Bool × String) : Event :=
  if chunk.fst then Event.processStderr info chunk.snd
  else Event.processStdout info chunk.snd

/-- The event sequence emitted by one run of
`ExecuteProcess.__execute_process` (`execute_process.py`, lines 161-200),
with the coroutine embedded as a sequential trace: substitutions are expanded
first (into `info`), then the child is spawned; if the spawn raises, the
exception propagates and nothing is emitted; otherwise `ProcessStarted` is
emitted, the protocol delivers each output chunk as a `ProcessStdout` /
`ProcessStderr` event while the coroutine awaits `protocol.complete`, and
`ProcessExited` with the return code is emitted after completion. -/
def executeProcessCoro (info : ProcInfo) (outcome : SpawnOutcome) :
    Except PyErr Unit × List Event :=
  match outcome with
  | SpawnOutcome.fail errno => (Except.error (PyErr.osError errno), [])
  | SpawnOutcome.ok io rc =>
      (Except.ok (),
        Event.processStarted info :: (io.map (ioEvent info) ++ [Event.processExited info rc]))

/-- The effect of the asyncio task created for `__execute_process` on the
context (`execute_process.py`, line 225): every event the coroutine emits goes
onto the queue of the context (via `emit_event` / `emit_event_sync`), and an
exception ending the coroutine is stored on the task object by the event loop
— it is never re-raised inside the run loop of the service. -/
def driveProcessTask (info : ProcInfo) (outcome : SpawnOutcome) (ctx : Ctx) : Ctx :=
  match executeProcessCoro info outcome with
  | (Except.ok _, evs) => { ctx with queue := ctx.queue ++ evs }
  | (Except.error e, evs) =>
      { ctx with queue := ctx.queue ++ evs, taskExc := ctx.taskExc ++ [e] }

/-- The keyword arguments reaching `ProcessEvent.__init__`
(`process_event.py`, lines 30-37); each field is `none` when the caller did
not pass the corresponding keyword. -/
structure ProcessEventKwargs where
  action : Option Nat
  cmd : Option (List String)
  cwd : Option (Option String)
  env : Option (List (String × String))

/-- Embedding of `ProcessEvent.__init__` (`process_event.py`, lines 30-50): the keyword-only
parameters `action`, `cmd`, `cwd` and `env` have no defaults, so Python raises
`TypeError` before the body runs when any of them is missing. -/
def ProcessEvent.pyInit (kw : ProcessEventKwargs) : Except PyErr ProcInfo :=
  match kw.action, kw.cmd, kw.cwd, kw.env with
  | some a, some c, some w, some e => Except.ok (ProcInfo.mk a c w e)
  | _, _, _, _ => Except.error PyErr.typeError

/-- Embedding of `SignalProcess.__init__` (`signal_process.py`, lines 26-30): it calls
`super().__init__(action=action)`, passing only the `action` keyword to
`ProcessEvent.__init__`. -/
def SignalProcess.pyInit (action : Nat) (signalNumber : Int) :
    Except PyErr (ProcInfo × Int) :=
  match ProcessEvent.pyInit (ProcessEventKwargs.mk (some action) none none none) with
  | Except.ok info => Except.ok (info, signalNumber)
  | Except.error e => Except.error e

/-- Embedding of `next((rc for rc in self.__processes_rc.values() if rc != 0), default_rc)`
(`launch_testing/__init__.py`, line 227). -/
def firstNonZeroRc (rcs : List Int) (dflt : Int) : Int :=
  match rcs.find? (fun r => r != 0) with
  | some r => r
  | none => dflt

/-- Embedding of `LaunchTestService.run` (`launch_testing/__init__.py`, lines 211-228):
call the `run` of the parent; only when its result compares equal to `0` is it
replaced by the first non-zero test-process return code (default 1 if some
test failed, else 0); any other parent result — including `None` — is returned
unchanged. -/
def LaunchTestService.run (parentRc : Option Int) (anyTestFailed : Bool)
    (processesRc : List Int) : Option Int :=
  if parentRc == some 0 then
    some (firstNonZeroRc processesRc (if anyTestFailed then 1 else 0))
  else parentRc

/-- Spec-side predicate delimiting the handler bodies within the scope of the
dispatch-order claim: handlers that return `None` or a single entity, plus the
service shutdown handler.  Raising handlers and non-entity results abort
dispatch and are the subject of the error-handling claims. -/
def goodBody : Handler → Bool
  | Handler.mk _ _ (HBody.ret HRes.retNone) => true
  | Handler.mk _ _ (HBody.ret (HRes.retEntity _)) => true
  | Handler.mk _ _ HBody.onShutdownSvc => true
  | _ => false

/-- Spec-side description of one dispatch turn, following the words of the
spec: the snapshot is walked front to back; every handler whose matcher
accepts the event is invoked, and an entity it returns is visited immediately
after it returns, before the next handler is invoked. -/
def dispatchTrace (e : Event) : List Handler → List TraceItem
  | [] => []
  | h :: rest =>
    if h.matcher.matches e then
      match h.body with
      | HBody.ret (HRes.retEntity ent) =>
          TraceItem.invokedH h.hid :: TraceItem.visitedE ent.eid :: dispatchTrace e rest
      | _ => TraceItem.invokedH h.hid :: dispatchTrace e rest
    else dispatchTrace e rest

/-- Concatenation of a list of strings with no separator (Python
`''.join(parts)`), with the singleton case immediate. -/
def strJoin : List String → String
  | [] => ""
  | [s] => s
  | s :: rest => s ++ strJoin rest

/-- Modelled from the spec: the per-element substitution expansion of section
4.D.2 — one argv entry per template element, each entry the concatenation of
the performed strings of all substitutions in that element.  This follows the
words of the spec, for comparison against the code path. -/
def specExpandCmdPerElement (cmd : List (List Substitution)) : List String :=
  cmd.map (fun elem => strJoin (elem.map perform_substitution))

/-- Returns true iff the event is a `ProcessStarted` event. -/
def Event.isStartedEvent : Event → Bool
  | Event.processStarted _ => true
  | _ => false

/-- A sample resolved process payload for the action with id 7. -/
def infoA : ProcInfo :=
  ProcInfo.mk 7 ["/bin/sleep", "60"] none none

/-- Context of the shutdown-teardown scenario (spec section 8, scenario 3):
the two service handlers are registered, a `Shutdown` event is queued, and two
spawned children (pids 42 and 43) are alive. -/
def ctxC2 : Ctx :=
  Ctx.mk [Event.shutdown "stop"] LaunchService.initialHandlers false [] [] [] [] [42, 43]

/-- Clean-shutdown context: service handlers registered, a `Shutdown` event
queued, no children. -/
def ctxC7 : Ctx :=
  Ctx.mk [Event.shutdown "done"] LaunchService.initialHandlers false [] [] [] [] []

/-- A `ProcessStarted` event of action 7. -/
def eStartedA : Event :=
  Event.processStarted infoA

/-- A handler (id 11) matching `ProcessStarted` events that raises. -/
def hRaise : Handler :=
  Handler.mk 11 (event_named "launch.events.process.ProcessStarted")
    (HBody.ret (HRes.raises (PyErr.userError 7)))

/-- A later-registered handler (id 12) matching the same events. -/
def hLater : Handler :=
  Handler.mk 12 (event_named "launch.events.process.ProcessStarted") (HBody.ret HRes.retNone)

/-- Context with a raising handler in front of another matching handler and
the triggering event queued. -/
def ctxC4 : Ctx :=
  Ctx.mk [eStartedA] [hRaise, hLater] false [] [] [] [] []

/-- A handler (id 52) to be registered during dispatch. -/
def hInner : Handler :=
  Handler.mk 52 (event_named "launch.events.process.ProcessStarted") (HBody.ret HRes.retNone)

/-- A handler (id 51) whose result is a `RegisterEventHandler` action (entity
id 100) registering `hInner`. -/
def hRegistering : Handler :=
  Handler.mk 51 (event_named "launch.events.process.ProcessStarted")
    (HBody.ret (HRes.retEntity (Entity.registerHandlerE 100 hInner)))

/-- A matching handler (id 53) returning `None`. -/
def hPlain : Handler :=
  Handler.mk 53 (event_named "launch.events.process.ProcessStarted") (HBody.ret HRes.retNone)

/-- A non-matching handler (id 54). -/
def hOther : Handler :=
  Handler.mk 54 (event_named "launch.events.Shutdown") (HBody.ret HRes.retNone)

/-- Context of the snapshot/order scenario: three registered handlers, one of
which registers a fourth during dispatch. -/
def ctxC5 : Ctx :=
  Ctx.mk [] [hRegistering, hPlain, hOther] true [] [] [] [] []

/-- A handler (id 21) with the `OnProcessExit` matcher for action 7 whose
result is a plain Python list of entities (as the `on_exit` callables of
`launch_testing` return). -/
def hListReturning : Handler :=
  Handler.mk 21 (Matcher.onProcessExitOf 7) (HBody.ret (HRes.retEntityList [Entity.nop 3]))

/-- A later matching handler (id 22). -/
def hAfterList : Handler :=
  Handler.mk 22 (Matcher.onProcessExitOf 7) (HBody.ret HRes.retNone)

/-- A `ProcessExited` event of action 7 with return code 0. -/
def eExitedA : Event :=
  Event.processExited infoA 0

/-- Context with the list-returning handler registered in front of another
matching handler. -/
def ctxC10 : Ctx :=
  Ctx.mk [] [hListReturning, hAfterList] true [] [] [] [] []

/-- Classification of the event emitted for one output chunk: always a
`ProcessIO` event, never `ProcessStarted` or `ProcessExited`. -/
theorem ioEvent_classify (info : ProcInfo) (c : Bool × String) :
    (ioEvent info c).isProcessIOEvent = true ∧ (ioEvent info c).isStartedEvent = false ∧
    (ioEvent info c).isExitedEvent = false := by
  cases c with
  | mk b s => cases b <;> exact ⟨rfl, rfl, rfl⟩

/-- C9: constructing a `SignalProcess` event raises `TypeError` for every
input, because `SignalProcess.__init__` passes only the `action` keyword to
`ProcessEvent.__init__`, whose keyword-only parameters `cmd`, `cwd` and `env`
have no defaults; consequently no `SignalProcess` event can be instantiated. -/
theorem signal_process_constructor_type_error :
    ∀ (action : Nat) (signalNumber : Int),
      SignalProcess.pyInit action signalNumber = Except.error PyErr.typeError := by
  intro a s
  rfl

/-- C6 (counterexample): at the concrete failed spawn of action 7 with errno 2,
`__execute_process` emits no event at all — in particular no `ProcessExited`
carrying the platform error — and the `OSError` propagates out of the
coroutine. -/
theorem spawn_failure_counterexample :
    executeProcessCoro infoA (SpawnOutcome.fail 2) = (Except.error (PyErr.osError 2), []) ∧
    ((executeProcessCoro infoA (SpawnOutcome.fail 2)).2.countP Event.isExitedEvent) = 0 :=
  ⟨rfl, rfl⟩

/-- C6 (amended): when the OS refuses the spawn, the action emits no event for
that execution (no `ProcessExited`, no other event) and the `OSError` is
confined to the asyncio task that drove the coroutine; the queue, handler
registry and running flag of the service are untouched, so the service as a
whole continues running. -/
theorem spawn_failure_confined_to_task (info : ProcInfo) (errno : Nat) (ctx : Ctx) :
    driveProcessTask info (SpawnOutcome.fail errno) ctx =
      { ctx with taskExc := ctx.taskExc ++ [PyErr.osError errno] } := by
  cases ctx
  simp [driveProcessTask, executeProcessCoro]

/-- C3: for every execution whose spawn succeeds, the emitted sequence is
exactly one `ProcessStarted`, then only `ProcessStdout` / `ProcessStderr`
events, then exactly one `ProcessExited` with the return code of the child —
so the start strictly precedes the exit and no output event falls outside the
two; and when the spawn fails, nothing is emitted (in particular no
`ProcessExited`) and the exception propagates. -/
theorem execute_process_event_discipline :
    (∀ (info : ProcInfo) (io : List (Bool × String)) (rc : Int),
      ((executeProcessCoro info (SpawnOutcome.ok io rc)).2.countP Event.isStartedEvent) = 1 ∧
      ((executeProcessCoro info (SpawnOutcome.ok io rc)).2.countP Event.isExitedEvent) = 1 ∧
      ∃ mid, (executeProcessCoro info (SpawnOutcome.ok io rc)).2 =
          Event.processStarted info :: (mid ++ [Event.processExited info rc]) ∧
        ∀ ev ∈ mid, ev.isProcessIOEvent = true ∧ ev.isStartedEvent = false ∧
          ev.isExitedEvent = false) ∧
    (∀ (info : ProcInfo) (errno : Nat),
      executeProcessCoro info (SpawnOutcome.fail errno) =
        (Except.error (PyErr.osError errno), [])) := by
  constructor
  · intro info io rc
    have hzs : (io.map (ioEvent info)).countP Event.isStartedEvent = 0 := by
      rw [List.countP_eq_zero]
      intro a ha
      obtain ⟨c, _, rfl⟩ := List.mem_map.mp ha
      simp [(ioEvent_classify info c).2.1]
    have hze : (io.map (ioEvent info)).countP Event.isExitedEvent = 0 := by
      rw [List.countP_eq_zero]
      intro a ha
      obtain ⟨c, _, rfl⟩ := List.mem_map.mp ha
      simp [(ioEvent_classify info c).2.2]
    refine ⟨?_, ?_, io.map (ioEvent info), rfl, ?_⟩
    · simp [executeProcessCoro, List.countP_cons, List.countP_append, hzs,
        Event.isStartedEvent, Event.isExitedEvent]
    · simp [executeProcessCoro, List.countP_cons, List.countP_append, hze,
        Event.isStartedEvent, Event.isExitedEvent]
    · intro ev hev
      obtain ⟨c, _, rfl⟩ := List.mem_map.mp hev
      exact ioEvent_classify info c
  · intro info errno
    rfl

/-- C7 (counterexample): on a concrete clean shutdown (service handlers
registered, one `Shutdown` event, no children), `LaunchService.run` returns
Python `None`, not the integer exit code `0` the claim requires. -/
theorem run_clean_shutdown_returns_none :
    (LaunchService.run 5 ctxC7).1 = Except.ok none ∧
    (Except.ok none : Except PyErr (Option Int)) ≠ Except.ok (some 0) := by
  refine ⟨rfl, ?_⟩
  intro h
  simp at h

/-- C7 (amended): `LaunchService.run` never returns an integer exit code: its
value is `None` whenever it returns normally (clean shutdown included), and on
a handler failure the exception propagates instead of a non-zero return; the
`launch_testing` wrapper passes the `None` of this parent through unchanged,
substituting a test exit code only when the parent result compares equal
to 0. -/
theorem run_returns_no_exit_code :
    (∀ (fuel : Nat) (ctx : Ctx),
      (LaunchService.run fuel ctx).1 = Except.ok none ∨
      ∃ err, (LaunchService.run fuel ctx).1 = Except.error err) ∧
    (∀ (anyFailed : Bool) (rcs : List Int),
      LaunchTestService.run none anyFailed rcs = none) ∧
    (∀ (anyFailed : Bool) (rcs : List Int),
      LaunchTestService.run (some 0) anyFailed rcs =
        some (firstNonZeroRc rcs (if anyFailed then 1 else 0))) := by
  refine ⟨?_, ?_, ?_⟩
  · intro fuel ctx
    unfold LaunchService.run
    by_cases h : ctx.running
    · exact Or.inr ⟨PyErr.runtimeError, by simp [h]⟩
    · rcases hr : runLoop fuel { ctx with running := true } with ⟨ctx2, err2⟩
      cases err2 with
      | none => exact Or.inl (by simp [h, hr])
      | some err => exact Or.inr ⟨err, by simp [h, hr]⟩
  · intro b rcs
    rfl
  · intro b rcs
    rfl

/-- C2: processing a `Shutdown` event flips the running flag and does nothing
else — `LaunchService.__on_shutdown_event` has no teardown (its TODO says
running actions should be shut down "some how") and the context keeps no
process table.  Concretely, a run that dispatches `Shutdown` while two
children are alive returns with both children still alive, no `ProcessExited`
event emitted (the trace records only the shutdown handler invocation and the
queue ends empty), contradicting the claimed terminate-and-drain behaviour. -/
theorem shutdown_leaves_children_running :
    (∀ (ctx : Ctx) (i : Nat) (r : String),
      goHandlers [Handler.mk i (event_named "launch.events.Shutdown") HBody.onShutdownSvc]
          (Event.shutdown r) ctx =
        ({ ctx.pushTrace (TraceItem.invokedH i) with running := false }, none)) ∧
    (LaunchService.run 5 ctxC2).1 = Except.ok none ∧
    (LaunchService.run 5 ctxC2).2.aliveChildren = [42, 43] ∧
    (LaunchService.run 5 ctxC2).2.running = false ∧
    (LaunchService.run 5 ctxC2).2.queue = [] ∧
    (LaunchService.run 5 ctxC2).2.trace = [TraceItem.invokedH 1] := by
  refine ⟨?_, rfl, rfl, rfl, rfl, rfl⟩
  intro ctx i r
  simp [goHandlers, Matcher.matches, event_named, Event.name,
    Handler.matcher, Handler.body, Handler.hid]

/-- Normalization of a flat list of strings: each becomes its
`TextSubstitution`. -/
theorem normalizeAll_text (strs : List String) :
    normalizeAll (strs.map SomeSub.text) = Except.ok (strs.map TextSubstitution) := by
  induction strs with
  | nil => rfl
  | cons s rest ih => simp [normalizeAll, normalizeItem, ih]

/-- C8: `ExecuteProcess.__init__` normalizes the whole `cmd` iterable at once,
so a template element that is itself a list of substitutions — as the
docstring allows and spec scenario 6 uses (`cmd = [["whoami"]]`) — raises
`TypeError` at construction, and no expansion ever happens for it; the
per-element concatenation the spec describes would instead produce one argv
entry for it.  Templates whose elements are single strings are accepted, and
for them the expansion yields one argv entry per element, equal to its
performed string. -/
theorem cmd_list_element_raises_type_error :
    (∀ s : String,
      ExecuteProcess.initCmd [SomeSub.iter [SomeSub.text s]] = Except.error PyErr.typeError) ∧
    (∀ s : String, specExpandCmdPerElement [[TextSubstitution s]] = [s]) ∧
    (∀ strs : List String,
      ExecuteProcess.initCmd (strs.map SomeSub.text) = Except.ok (strs.map TextSubstitution) ∧
      ExecuteProcess.finalCmd (strs.map TextSubstitution) = strs) := by
  refine ⟨?_, ?_, ?_⟩
  · intro s
    rfl
  · intro s
    rfl
  · intro strs
    constructor
    · show normalize_to_list_of_substitutions (SomeSub.iter (strs.map SomeSub.text)) = _
      simp [normalize_to_list_of_substitutions, normalizeAll_text]
    · rw [ExecuteProcess.finalCmd, List.map_map]
      exact List.map_id strs

/-- C1: `ExecuteProcess.execute` registers exactly three handlers and
schedules the spawn task, but the three matchers are
`event_named` with the names `launch.events.ShutdownProcess`,
`launch.events.SignalProcess` and `launch.events.ProcessStdin` — missing the
`.process.` segment of the declared event names — and carry no
`event.action == self` filter; those matchers accept no event of the system at
all, in particular not the `ShutdownProcess`, `SignalProcess` and
`ProcessStdin` events the docstring says are handled. -/
theorem execute_registers_unmatchable_handlers :
    (∀ (aid h1 h2 h3 : Nat) (ctx : Ctx),
      (ExecuteProcess.execute aid h1 h2 h3 ctx).handlers =
        Handler.mk h3 (event_named "launch.events.ProcessStdin") (HBody.ret HRes.retNone) ::
          Handler.mk h2 (event_named "launch.events.SignalProcess") (HBody.ret HRes.retNone) ::
            Handler.mk h1 (event_named "launch.events.ShutdownProcess") (HBody.ret HRes.retNone) ::
              ctx.handlers ∧
      (ExecuteProcess.execute aid h1 h2 h3 ctx).tasks = ctx.tasks ++ [aid]) ∧
    (∀ e : Event,
      (event_named "launch.events.ShutdownProcess").matches e = false ∧
      (event_named "launch.events.SignalProcess").matches e = false ∧
      (event_named "launch.events.ProcessStdin").matches e = false) := by
  constructor
  · intro aid h1 h2 h3 ctx
    exact ⟨rfl, rfl⟩
  · intro e
    cases e <;> exact ⟨rfl, rfl, rfl⟩

/-- Trace effect of visiting one entity: exactly one `visitedE` item is
appended. -/
theorem visitEntity_trace (ent : Entity) (ctx : Ctx) :
    (visitEntity ent ctx).trace = ctx.trace ++ [TraceItem.visitedE ent.eid] := by
  cases ent <;> rfl

/-- Handlers whose matcher rejects the event are skipped with no effect on the
context. -/
theorem goHandlers_skip_nonmatching (e : Event) (pre : List Handler) :
    ∀ (tail : List Handler) (ctx : Ctx),
      pre.all (fun g => !(g.matcher.matches e)) = true →
      goHandlers (pre ++ tail) e ctx = goHandlers tail e ctx := by
  induction pre with
  | nil =>
      intro tail ctx _
      rfl
  | cons g rest ih =>
      intro tail ctx hall
      rw [List.all_cons, Bool.and_eq_true] at hall
      have hg : g.matcher.matches e = false := by
        have h1 := hall.1
        rwa [Bool.not_eq_true'] at h1
      simp only [List.cons_append, goHandlers, hg, Bool.false_eq_true, if_false]
      exact ih tail ctx hall.2

/-- A matching handler that raises ends the walk at once: the only effect is
the invocation trace item, and the exception is propagated. -/
theorem goHandlers_raise (e : Event) (h : Handler) (post : List Handler) (err : PyErr)
    (hm : h.matcher.matches e = true) (hb : h.body = HBody.ret (HRes.raises err)) :
    ∀ ctx : Ctx,
      goHandlers (h :: post) e ctx = (ctx.pushTrace (TraceItem.invokedH h.hid), some err) := by
  intro ctx
  simp [goHandlers, hm, hb]

/-- A matching handler whose result is a non-entity value (a list of entities
included) ends the walk with `RuntimeError`: the only effect is the invocation
trace item. -/
theorem goHandlers_bad_result (e : Event) (h : Handler) (post : List Handler) (l : List Entity)
    (hm : h.matcher.matches e = true) (hb : h.body = HBody.ret (HRes.retEntityList l)) :
    ∀ ctx : Ctx,
      goHandlers (h :: post) e ctx =
        (ctx.pushTrace (TraceItem.invokedH h.hid), some PyErr.runtimeError) := by
  intro ctx
  simp [goHandlers, hm, hb]

/-- C4: when dispatch reaches a matching handler that raises, dispatch of that
event aborts — the only observable effect is that handler invocation, so no
later-registered matching handler fires, nothing is logged, and no `Shutdown`
event is enqueued — and the exception propagates through the run loop and out
of `LaunchService.run`, which therefore raises instead of returning an exit
code. -/
theorem handler_raise_aborts_dispatch
    (pre post : List Handler) (h : Handler) (e : Event) (err : PyErr)
    (hpre : pre.all (fun g => !(g.matcher.matches e)) = true)
    (hm : h.matcher.matches e = true)
    (hb : h.body = HBody.ret (HRes.raises err)) :
    (∀ ctx : Ctx, ctx.handlers = pre ++ h :: post →
      processEvent e ctx = (ctx.pushTrace (TraceItem.invokedH h.hid), some err)) ∧
    (∀ (ctx : Ctx) (fuel : Nat) (rest : List Event),
      ctx.handlers = pre ++ h :: post → ctx.queue = e :: rest → ctx.running = false →
      (LaunchService.run (fuel + 1) ctx).1 = Except.error err) := by
  have core : ∀ ctx : Ctx, ctx.handlers = pre ++ h :: post →
      processEvent e ctx = (ctx.pushTrace (TraceItem.invokedH h.hid), some err) := by
    intro ctx hh
    unfold processEvent
    rw [hh, goHandlers_skip_nonmatching e pre (h :: post) ctx hpre]
    exact goHandlers_raise e h post err hm hb ctx
  refine ⟨core, ?_⟩
  intro ctx fuel rest hh hq hr
  have hcore := core { ctx with running := true, queue := rest } (by simp [hh])
  simp [LaunchService.run, runLoop, hr, hq, hcore]

/-- C4 (witness): concrete dispatch in which the front handler (id 11) raises
while a later matching handler (id 12) is registered. -/
theorem handler_raise_witness :
    ([] : List Handler).all (fun g => !(g.matcher.matches eStartedA)) = true ∧
    hRaise.matcher.matches eStartedA = true ∧
    hRaise.body = HBody.ret (HRes.raises (PyErr.userError 7)) ∧
    processEvent eStartedA ctxC4 =
      (ctxC4.pushTrace (TraceItem.invokedH hRaise.hid), some (PyErr.userError 7)) ∧
    (LaunchService.run (4 + 1) ctxC4).1 = Except.error (PyErr.userError 7) := by
  have T := handler_raise_aborts_dispatch [] [hLater] hRaise eStartedA (PyErr.userError 7)
    rfl rfl rfl
  exact ⟨rfl, rfl, rfl, T.1 ctxC4 rfl, T.2 ctxC4 4 [] rfl rfl rfl⟩

/-- C4 (counterexample): at the concrete raising dispatch, the event queue
after dispatch contains no `Shutdown` event at all (so no
`Shutdown { reason = "handler raised" }` was emitted), the later matching
handler was never invoked, and `run` ends with the propagated exception
rather than a non-zero integer exit code. -/
theorem handler_raise_no_shutdown_emitted :
    (processEvent eStartedA ctxC4).2 = some (PyErr.userError 7) ∧
    ((processEvent eStartedA ctxC4).1.queue.any
      (fun ev => ev.name == "launch.events.Shutdown")) = false ∧
    ((processEvent eStartedA ctxC4).1.trace.contains (TraceItem.invokedH 12)) = false ∧
    (LaunchService.run 5 ctxC4).1 = Except.error (PyErr.userError 7) :=
  ⟨rfl, rfl, rfl, rfl⟩

/-- Dispatch over a snapshot of handlers whose bodies are in the scope of the
dispatch-order claim produces no error, and its trace is exactly the spec-side
turn description appended to the prior trace — independent of any handler
registrations or event emissions performed by the visited entities. -/
theorem goHandlers_good_trace (e : Event) (hs : List Handler) :
    ∀ ctx : Ctx, hs.all goodBody = true →
      (goHandlers hs e ctx).2 = none ∧
      (goHandlers hs e ctx).1.trace = ctx.trace ++ dispatchTrace e hs := by
  induction hs with
  | nil =>
      intro ctx _
      simp [goHandlers, dispatchTrace]
  | cons h rest ih =>
      intro ctx hall
      rw [List.all_cons, Bool.and_eq_true] at hall
      obtain ⟨hgood, hrest⟩ := hall
      cases h with
      | mk i m b =>
        by_cases hm : Matcher.matches m e
        · cases b with
          | ret r =>
            cases r with
            | raises err =>
                exact absurd hgood (by simp [goodBody])
            | retNone =>
                have hih := ih (ctx.pushTrace (TraceItem.invokedH i)) hrest
                constructor
                · simpa [goHandlers, Handler.matcher, Handler.body, Handler.hid, hm]
                    using hih.1
                · have h2 := hih.2
                  simp only [Ctx.pushTrace] at h2
                  simp [goHandlers, dispatchTrace, Handler.matcher, Handler.body,
                    Handler.hid, hm, h2, Ctx.pushTrace]
            | retEntity ent =>
                have hih := ih (visitEntity ent (ctx.pushTrace (TraceItem.invokedH i))) hrest
                constructor
                · simpa [goHandlers, Handler.matcher, Handler.body, Handler.hid, hm]
                    using hih.1
                · have h2 := hih.2
                  rw [visitEntity_trace] at h2
                  simp only [Ctx.pushTrace] at h2
                  simp [goHandlers, dispatchTrace, Handler.matcher, Handler.body,
                    Handler.hid, hm, h2, Ctx.pushTrace]
            | retEntityList l =>
                exact absurd hgood (by simp [goodBody])
            | retOther =>
                exact absurd hgood (by simp [goodBody])
          | onShutdownSvc =>
              have hih := ih { ctx.pushTrace (TraceItem.invokedH i) with running := false } hrest
              constructor
              · simpa [goHandlers, Handler.matcher, Handler.body, Handler.hid, hm]
                  using hih.1
              · have h2 := hih.2
                simp only [Ctx.pushTrace] at h2
                simp [goHandlers, dispatchTrace, Handler.matcher, Handler.body,
                  Handler.hid, hm, h2, Ctx.pushTrace]
          | onIncludeSvc =>
              exact absurd hgood (by simp [goodBody])
        · have hih := ih ctx hrest
          constructor
          · simpa [goHandlers, Handler.matcher, hm] using hih.1
          · have h2 := hih.2
            simp [goHandlers, dispatchTrace, Handler.matcher, hm, h2]

/-- C5: dispatch walks a snapshot of the handler list taken before iteration
(a handler registered by a visited entity lands in the live list but
contributes nothing to the trace of this event), front to back in current
registration order — and registration prepends, so the most recently
registered handler is walked first; every snapshot handler whose matcher
accepts the event is invoked; and the entity a handler returns is visited
immediately after that handler, before the next handler is invoked.  All of
this is the content of the trace equation against the spec-side
`dispatchTrace`. -/
theorem processEvent_snapshot_order_immediacy
    (ctx : Ctx) (e : Event) (hgood : ctx.handlers.all goodBody = true) :
    (processEvent e ctx).2 = none ∧
    (processEvent e ctx).1.trace = ctx.trace ++ dispatchTrace e ctx.handlers ∧
    ∀ h : Handler, (register_event_handler h ctx).handlers = h :: ctx.handlers := by
  refine ⟨(goHandlers_good_trace e ctx.handlers ctx hgood).1,
          (goHandlers_good_trace e ctx.handlers ctx hgood).2,
          fun h => rfl⟩

/-- C5 (witness): concrete dispatch with a handler that registers a new
handler mid-turn, a second matching handler, and a non-matching one. -/
theorem processEvent_snapshot_witness :
    ctxC5.handlers.all goodBody = true ∧
    ((processEvent eStartedA ctxC5).2 = none ∧
     (processEvent eStartedA ctxC5).1.trace =
       ctxC5.trace ++ dispatchTrace eStartedA ctxC5.handlers ∧
     ∀ h : Handler, (register_event_handler h ctxC5).handlers = h :: ctxC5.handlers) :=
  ⟨rfl, processEvent_snapshot_order_immediacy ctxC5 eStartedA rfl⟩

/-- C10: a matching handler whose returned value is a plain Python list of
entities (neither `None` nor a single `LaunchDescriptionEntity`) makes
`__process_event` raise `RuntimeError`: the returned entities are not visited
(no visit appears in the trace) and no later handler is invoked. -/
theorem handler_list_result_raises_runtime_error
    (pre post : List Handler) (h : Handler) (e : Event) (l : List Entity) (ctx : Ctx)
    (hpre : pre.all (fun g => !(g.matcher.matches e)) = true)
    (hm : h.matcher.matches e = true)
    (hb : h.body = HBody.ret (HRes.retEntityList l))
    (hh : ctx.handlers = pre ++ h :: post) :
    processEvent e ctx = (ctx.pushTrace (TraceItem.invokedH h.hid), some PyErr.runtimeError) := by
  unfold processEvent
  rw [hh, goHandlers_skip_nonmatching e pre (h :: post) ctx hpre]
  exact goHandlers_bad_result e h post l hm hb ctx

/-- C10 (witness): the `OnProcessExit`-style handler for action 7 returns the
list `[nop]` on the matching `ProcessExited` event; dispatch raises
`RuntimeError` and the later matching handler (id 22) never fires. -/
theorem handler_list_result_witness :
    ([] : List Handler).all (fun g => !(g.matcher.matches eExitedA)) = true ∧
    hListReturning.matcher.matches eExitedA = true ∧
    hListReturning.body = HBody.ret (HRes.retEntityList [Entity.nop 3]) ∧
    ctxC10.handlers = [] ++ hListReturning :: [hAfterList] ∧
    processEvent eExitedA ctxC10 =
      (ctxC10.pushTrace (TraceItem.invokedH hListReturning.hid), some PyErr.runtimeError) :=
  ⟨rfl, rfl, rfl, rfl,
    handler_list_result_raises_runtime_error [] [hAfterList] hListReturning eExitedA
      [Entity.nop 3] ctxC10 rfl rfl rfl rfl⟩
